import Mathlib

/-!
Shallow embedding of the capora-boot-api crate (src/lib.rs): the boot
handoff protocol between a bootloader and the kernel it loads.  The crate
declares the protocol constants and the fixed data layouts; machine
integers (u32/u64/usize) are embedded as `Nat`, raw pointers as `Nat`
addresses, and the two pointer-plus-count arrays of the response as Lean
lists of the pointed-to records.  The bootloader-side checks and the
kernel-side validation are external collaborators, so those predicates are
modelled from the spec, as marked on each definition.
-/

namespace CaporaBootApi

/-- The signature that identifies the start of the bootloader request
(src/lib.rs SIGNATURE, a `[u64; 3]` array, written with the source's
binary digits). -/
def SIGNATURE : Fin 3 → Nat
  | 0 => 0b1001110100010111000101010101111111110011011000101001111100001001
  | 1 => 0b1101010011010111001011110100001100111111001001000101010110111101
  | 2 => 0b0100011100000110001100101101011000110010100101011011011011110010

/-- The version of the API that the crate currently describes
(src/lib.rs API_VERSION). -/
def API_VERSION : Nat := 0

/-- The segment type that specifies the location of the bootloader request
(src/lib.rs BOOTLOADER_REQUEST_ELF_SEGMENT, a u32). -/
def BOOTLOADER_REQUEST_ELF_SEGMENT : Nat := 0x69B2BA6E

/-- Information that the kernel shares with the bootloader
(src/lib.rs BootloaderRequest): a three-word signature array followed by
the expected API version. -/
structure BootloaderRequest where
  signature : Fin 3 → Nat
  api_version : Nat

/-- The kind of a memory region (src/lib.rs MemoryMapEntryKind): a
transparent wrapper around a u64 value. -/
structure MemoryMapEntryKind where
  val : Nat
deriving DecidableEq

/-- The memory region is available for general use. -/
def MemoryMapEntryKind.USABLE : MemoryMapEntryKind := ⟨0⟩

/-- The memory region should not be touched by the OS. -/
def MemoryMapEntryKind.RESERVED : MemoryMapEntryKind := ⟨1⟩

/-- The memory region should be preserved by the OS until ACPI is enabled. -/
def MemoryMapEntryKind.ACPI_RECLAIMABLE : MemoryMapEntryKind := ⟨2⟩

/-- The memory region should be preserved in the working and ACPI S1-S3 states. -/
def MemoryMapEntryKind.ACPI_NONVOLATILE_STORAGE : MemoryMapEntryKind := ⟨3⟩

/-- The memory region contains errors and should not be used. -/
def MemoryMapEntryKind.UNUSABLE : MemoryMapEntryKind := ⟨4⟩

/-- The memory region must be accepted before use. -/
def MemoryMapEntryKind.UNACCEPTED : MemoryMapEntryKind := ⟨5⟩

/-- The memory region contains structures provided by the loading bootloader. -/
def MemoryMapEntryKind.BOOTLOADER : MemoryMapEntryKind := ⟨6⟩

/-- The memory region contains kernel code or data. -/
def MemoryMapEntryKind.KERNEL : MemoryMapEntryKind := ⟨7⟩

/-- The memory region contains a single module. -/
def MemoryMapEntryKind.MODULE : MemoryMapEntryKind := ⟨8⟩

/-- The named kind constants of src/lib.rs, in declaration order; the
source declares exactly these nine associated constants. -/
def MemoryMapEntryKind.named : List MemoryMapEntryKind :=
  [MemoryMapEntryKind.USABLE, MemoryMapEntryKind.RESERVED,
   MemoryMapEntryKind.ACPI_RECLAIMABLE, MemoryMapEntryKind.ACPI_NONVOLATILE_STORAGE,
   MemoryMapEntryKind.UNUSABLE, MemoryMapEntryKind.UNACCEPTED,
   MemoryMapEntryKind.BOOTLOADER, MemoryMapEntryKind.KERNEL,
   MemoryMapEntryKind.MODULE]

/-- A descriptor of a memory region (src/lib.rs MemoryMapEntry): kind,
base and size, with base and size u64 values. -/
structure MemoryMapEntry where
  kind : MemoryMapEntryKind
  base : Nat
  size : Nat
deriving DecidableEq

/-- A descriptor of a module loaded at boot time (src/lib.rs ModuleEntry);
the name pointer and the module address are embedded as Nat addresses. -/
structure ModuleEntry where
  name : Nat
  name_length : Nat
  address : Nat
  size : Nat
deriving DecidableEq

/-- Information that the kernel requires to properly boot
(src/lib.rs BootloaderResponse).  Pointer fields are Nat addresses; the
memory-map array (memory_map_entries plus memory_map_entry_count) and the
module array (module_entries plus module_entry_count) are embedded as the
lists of records the pointers point to, whose lengths stand for the count
fields. -/
structure BootloaderResponse where
  bootloader_name : Nat
  bootloader_name_length : Nat
  bootloader_version : Nat
  bootloader_version_length : Nat
  kernel_virtual_address : Nat
  direct_map : Nat
  memory_map_entries : List MemoryMapEntry
  sm_bios_entry_32 : Nat
  sm_bios_entry_64 : Nat
  rsdp_table_ptr : Nat
  uefi_system_table_ptr : Nat
  uefi_memory_map : Nat
  uefi_memory_map_size : Nat
  uefi_memory_map_descriptor_size : Nat
  uefi_memory_map_descriptor_version : Nat
  module_entries : List ModuleEntry

/-- Comparison of unsigned integers, as u64 Ord in Rust compares. -/
def natCmp (a b : Nat) : Ordering :=
  if a < b then Ordering.lt else if a = b then Ordering.eq else Ordering.gt

/-- The derived Ord of MemoryMapEntryKind (a one-field struct): comparison
of the wrapped u64 values. -/
def MemoryMapEntryKind.cmp (a b : MemoryMapEntryKind) : Ordering :=
  natCmp a.val b.val

/-- The derived Ord of MemoryMapEntry: Rust's derive compares the fields
in declaration order, kind then base then size, each tie broken by the
next field. -/
def MemoryMapEntry.cmp (a b : MemoryMapEntry) : Ordering :=
  ((MemoryMapEntryKind.cmp a.kind b.kind).then (natCmp a.base b.base)).then
    (natCmp a.size b.size)

/-- Round `n` up to the next multiple of the alignment `a` (the C struct
layout rule that repr(C) on the source structs invokes). -/
def alignUp (n a : Nat) : Nat := ((n + a - 1) / a) * a

/-- A field of a repr(C) struct: its size and alignment in bytes. -/
structure CField where
  size : Nat
  align : Nat

/-- Offsets the C layout algorithm assigns to a field list, starting at a
given offset: each field is placed at the current offset rounded up to the
field's alignment. -/
def fieldOffsets : Nat → List CField → List Nat
  | _, [] => []
  | off, f :: rest =>
    let o := alignUp off f.align
    o :: fieldOffsets (o + f.size) rest

/-- The offset just past the last field the C layout algorithm places. -/
def structEnd : Nat → List CField → Nat
  | off, [] => off
  | off, f :: rest => structEnd (alignUp off f.align + f.size) rest

/-- The alignment of a repr(C) struct: the largest field alignment. -/
def maxAlign (fields : List CField) : Nat :=
  fields.foldr (fun f m => max f.align m) 1

/-- The size of a repr(C) struct: the end offset rounded up to the struct
alignment. -/
def structSize (fields : List CField) : Nat :=
  alignUp (structEnd 0 fields) (maxAlign fields)

/-- The fields of BootloaderRequest as repr(C) lays them out on x86-64: a
`[u64; 3]` signature (size 3 * 8, alignment 8) then a u64 api_version
(size 8, alignment 8). -/
def bootloaderRequestFields : List CField := [⟨3 * 8, 8⟩, ⟨8, 8⟩]

/-- Modelled from the spec: the bootloader's signature check, which the
repository leaves to the bootloader implementation.  The three words of
the request's signature are compared with the SIGNATURE constant word for
word, an exact match. -/
def signatureValid (req : BootloaderRequest) : Bool :=
  (req.signature 0 == SIGNATURE 0) &&
    ((req.signature 1 == SIGNATURE 1) && (req.signature 2 == SIGNATURE 2))

/-- Modelled from the spec: version negotiation, which the repository
leaves to the bootloader implementation.  A bootloader implementing
version `supported` serves a request exactly when the requested
api_version is at most `supported`. -/
def versionSupported (supported : Nat) (req : BootloaderRequest) : Bool :=
  decide (req.api_version ≤ supported)

/-- Modelled from the spec: one memory-map entry wholly precedes another
when its half-open range ends at or before the other's base; consecutive
entries of a conformant memory map are related this way. -/
def mmBefore (a b : MemoryMapEntry) : Prop := a.base + a.size ≤ b.base

instance : DecidableRel mmBefore :=
  fun a b => inferInstanceAs (Decidable (a.base + a.size ≤ b.base))

instance : IsTrans MemoryMapEntry mmBefore where
  trans a b c hab hbc := by
    unfold mmBefore at hab hbc ⊢
    omega

/-- Modelled from the spec: an entry's base and size are both 4096-byte
aligned (the guarantee documented on memory_map_entries). -/
def MemoryMapEntry.pageAligned (e : MemoryMapEntry) : Prop :=
  e.base % 4096 = 0 ∧ e.size % 4096 = 0

instance : DecidablePred MemoryMapEntry.pageAligned :=
  fun e => inferInstanceAs (Decidable (e.base % 4096 = 0 ∧ e.size % 4096 = 0))

/-- The half-open range of a memory-map entry contains the address x. -/
def MemoryMapEntry.covers (e : MemoryMapEntry) (x : Nat) : Prop :=
  e.base ≤ x ∧ x < e.base + e.size

/-- Modelled from the spec: the memory-map invariants a conforming
bootloader must establish — consecutive entries are ordered with
non-overlapping ranges, and every entry is 4096-byte aligned. -/
def memoryMapWellFormed (entries : List MemoryMapEntry) : Prop :=
  List.Chain' mmBefore entries ∧ ∀ e ∈ entries, e.pageAligned

instance (entries : List MemoryMapEntry) : Decidable (memoryMapWellFormed entries) :=
  inferInstanceAs (Decidable (List.Chain' mmBefore entries ∧ ∀ e ∈ entries, e.pageAligned))

/-- Modelled from the spec: a valid BootloaderResponse, the conditions the
kernel-side validation (external to the repository) checks — the memory
map is well formed and every module address is 4096-byte aligned.  The
four firmware table pointers are each either a valid address or the null
sentinel 0, so validity places no constraint on them. -/
def BootloaderResponse.valid (r : BootloaderResponse) : Prop :=
  memoryMapWellFormed r.memory_map_entries ∧
    ∀ m ∈ r.module_entries, m.address % 4096 = 0

instance (r : BootloaderResponse) : Decidable r.valid :=
  inferInstanceAs (Decidable (memoryMapWellFormed r.memory_map_entries ∧
    ∀ m ∈ r.module_entries, m.address % 4096 = 0))

/-- The response with all four firmware table pointers set to the null
sentinel, the "not found" value their documentation names. -/
def BootloaderResponse.withNullFirmwareTables (r : BootloaderResponse) : BootloaderResponse :=
  { r with sm_bios_entry_32 := 0, sm_bios_entry_64 := 0,
           rsdp_table_ptr := 0, uefi_system_table_ptr := 0 }

/-- A concrete well-formed memory map used to instantiate the theorems. -/
def sampleMemoryMap : List MemoryMapEntry :=
  [⟨MemoryMapEntryKind.USABLE, 0, 4096⟩,
   ⟨MemoryMapEntryKind.ACPI_RECLAIMABLE, 4096, 4096⟩,
   ⟨MemoryMapEntryKind.USABLE, 8192, 4096⟩,
   ⟨MemoryMapEntryKind.MODULE, 12288, 4096⟩,
   ⟨MemoryMapEntryKind.KERNEL, 16384, 8192⟩,
   ⟨MemoryMapEntryKind.BOOTLOADER, 28672, 4096⟩]

/-- A concrete module list used to instantiate the theorems. -/
def sampleModules : List ModuleEntry := [⟨65536, 6, 12288, 4096⟩]

/-- A concrete response used to instantiate the theorems: a populated
response whose firmware table pointers are all non-null. -/
def sampleResponse : BootloaderResponse :=
  { bootloader_name := 65536
    bootloader_name_length := 6
    bootloader_version := 65600
    bootloader_version_length := 5
    kernel_virtual_address := 0xFFFFFFFF80000000
    direct_map := 0xFFFF800000000000
    memory_map_entries := sampleMemoryMap
    sm_bios_entry_32 := 0xF0000
    sm_bios_entry_64 := 0xF0100
    rsdp_table_ptr := 0xE0000
    uefi_system_table_ptr := 0x7F000000
    uefi_memory_map := 0x7E000000
    uefi_memory_map_size := 4608
    uefi_memory_map_descriptor_size := 48
    uefi_memory_map_descriptor_version := 1
    module_entries := sampleModules }

/-- Flipping one bit of a word changes it: xor with a power of two is
never the identity. -/
theorem xor_two_pow_ne (x k : Nat) : x ^^^ 2 ^ k ≠ x := by
  intro h
  have h2 := congrArg (fun y => Nat.testBit y k) h
  simp [Nat.testBit_xor, Nat.testBit_two_pow_self] at h2

/-- C3: a BootloaderRequest passes the signature check exactly when its
signature field equals the SIGNATURE constant; a request whose signature
differs from SIGNATURE in even one bit of one word is rejected. -/
theorem signature_check_exact_match :
    (∀ req : BootloaderRequest, signatureValid req = true ↔ req.signature = SIGNATURE) ∧
    (∀ (req : BootloaderRequest) (i : Fin 3) (k : Nat), k < 64 →
      req.signature = Function.update SIGNATURE i (SIGNATURE i ^^^ 2 ^ k) →
      signatureValid req = false) := by
  have hchar : ∀ req : BootloaderRequest, signatureValid req = true ↔ req.signature = SIGNATURE := by
    intro req
    constructor
    · intro h
      simp only [signatureValid, Bool.and_eq_true, beq_iff_eq] at h
      funext j
      fin_cases j
      · exact h.1
      · exact h.2.1
      · exact h.2.2
    · intro h
      simp [signatureValid, h]
  refine ⟨hchar, ?_⟩
  intro req i k _ hsig
  cases hval : signatureValid req with
  | false => rfl
  | true =>
    have heq : req.signature = SIGNATURE := (hchar req).mp hval
    rw [hsig] at heq
    have hi := congrFun heq i
    rw [Function.update_same] at hi
    exact absurd hi (xor_two_pow_ne (SIGNATURE i) k)

/-- C4: a bootloader implementing version V serves a request exactly when
its api_version is at most V; in particular a bootloader supporting the
crate's API_VERSION (0) rejects a request with api_version 1. -/
theorem version_negotiation_policy :
    (∀ (v : Nat) (req : BootloaderRequest),
      versionSupported v req = true ↔ req.api_version ≤ v) ∧
    (∀ req : BootloaderRequest, req.api_version = 1 →
      versionSupported API_VERSION req = false) := by
  constructor
  · intro v req
    simp [versionSupported]
  · intro req h
    simp [versionSupported, h, API_VERSION]

/-- C5: the repr(C) layout of BootloaderRequest places the 24-byte
signature at offset 0 and the 64-bit api_version at offset 24, with total
size 32 bytes and no padding (the size is the sum of the field sizes). -/
theorem bootloaderRequest_layout :
    fieldOffsets 0 bootloaderRequestFields = [0, 24] ∧
    structSize bootloaderRequestFields = 32 ∧
    structSize bootloaderRequestFields = (bootloaderRequestFields.map CField.size).sum := by
  refine ⟨rfl, rfl, rfl⟩

/-- C7: the kind taxonomy consists of exactly the nine named constants,
in declaration order USABLE .. MODULE with values 0 .. 8; MODULE is a
single kind of value 8, and every named kind value is at most 8, so no
synthetic kinds and no module-index range are part of the taxonomy. -/
theorem memory_map_kind_taxonomy :
    MemoryMapEntryKind.named.length = 9 ∧
    MemoryMapEntryKind.named.map MemoryMapEntryKind.val = [0, 1, 2, 3, 4, 5, 6, 7, 8] ∧
    MemoryMapEntryKind.MODULE.val = 8 ∧
    ∀ k ∈ MemoryMapEntryKind.named, k.val ≤ 8 := by
  refine ⟨rfl, rfl, rfl, by decide⟩

/-- C8: the reserved ELF segment tag marking the Request Descriptor's
segment is 0x69B2BA6E, a 32-bit value. -/
theorem elf_segment_tag_value :
    BOOTLOADER_REQUEST_ELF_SEGMENT = 0x69B2BA6E ∧
    BOOTLOADER_REQUEST_ELF_SEGMENT < 2 ^ 32 := by
  refine ⟨rfl, by decide⟩

/-- C9: the nine named kind constants take the consecutive values 0
through 8 in declaration order and are pairwise distinct, and the
transparent wrapper represents every u64 value, named or not. -/
theorem kind_values_consecutive_distinct :
    MemoryMapEntryKind.named.map MemoryMapEntryKind.val = List.range 9 ∧
    MemoryMapEntryKind.named.Nodup ∧
    ∀ v : Nat, v < 2 ^ 64 → ∃ k : MemoryMapEntryKind, k.val = v := by
  refine ⟨by decide, by decide, fun v _ => ⟨⟨v⟩, rfl⟩⟩

/-- C10: the derived order on MemoryMapEntry is lexicographic over
(kind, base, size) with kind compared first, and it does not coincide
with base-ascending order: there are entries e1, e2 with e1 below e2 in
the derived order and e2.base below e1.base. -/
theorem derived_order_lexicographic :
    (∀ a b : MemoryMapEntry, MemoryMapEntry.cmp a b = Ordering.lt ↔
      (a.kind.val < b.kind.val ∨ (a.kind.val = b.kind.val ∧
        (a.base < b.base ∨ (a.base = b.base ∧ a.size < b.size))))) ∧
    (∃ e1 e2 : MemoryMapEntry,
      MemoryMapEntry.cmp e1 e2 = Ordering.lt ∧ e2.base < e1.base) := by
  constructor
  · intro a b
    simp only [MemoryMapEntry.cmp, MemoryMapEntryKind.cmp, natCmp, Ordering.then]
    split_ifs <;> simp_all
  · exact ⟨⟨⟨0⟩, 4096, 4096⟩, ⟨⟨1⟩, 0, 4096⟩, by decide, by decide⟩

/-- The concrete response satisfies the modelled validity predicate. -/
theorem sampleResponse_valid : sampleResponse.valid := by
  refine ⟨⟨?_, by decide⟩, by decide⟩
  simp only [sampleResponse, sampleMemoryMap]
  simp [List.chain'_cons, List.chain'_singleton, mmBefore]

/-- C1: in a valid BootloaderResponse the memory-map array is sorted
ascending by base, and the half-open ranges of any two distinct entries do
not intersect. -/
theorem valid_memory_map_sorted_disjoint (r : BootloaderResponse) (h : r.valid) :
    List.Pairwise (fun a b => a.base ≤ b.base) r.memory_map_entries ∧
    ∀ (i j : Fin r.memory_map_entries.length), i ≠ j → ∀ x : Nat,
      (r.memory_map_entries.get i).covers x →
      ¬ (r.memory_map_entries.get j).covers x := by
  obtain ⟨⟨hchain, _⟩, _⟩ := h
  have hpw : List.Pairwise mmBefore r.memory_map_entries :=
    List.chain'_iff_pairwise.mp hchain
  constructor
  · exact hpw.imp fun {a b} hab => Nat.le_trans (Nat.le_add_right a.base a.size) hab
  · have hget := List.pairwise_iff_get.mp hpw
    intro i j hne x hxi hxj
    rcases lt_or_gt_of_ne hne with hij | hij
    · have hb : (r.memory_map_entries.get i).base + (r.memory_map_entries.get i).size ≤
          (r.memory_map_entries.get j).base := hget i j hij
      have h1 := hxi.2
      have h2 := hxj.1
      omega
    · have hb : (r.memory_map_entries.get j).base + (r.memory_map_entries.get j).size ≤
          (r.memory_map_entries.get i).base := hget j i hij
      have h1 := hxi.1
      have h2 := hxj.2
      omega

/-- Witness for C1: the sorted and disjointness conclusions hold of the
concrete valid response. -/
theorem valid_memory_map_sorted_disjoint_witness :
    List.Pairwise (fun a b => a.base ≤ b.base) sampleResponse.memory_map_entries ∧
    ∀ (i j : Fin sampleResponse.memory_map_entries.length), i ≠ j → ∀ x : Nat,
      (sampleResponse.memory_map_entries.get i).covers x →
      ¬ (sampleResponse.memory_map_entries.get j).covers x :=
  valid_memory_map_sorted_disjoint sampleResponse sampleResponse_valid

/-- C2: in a valid BootloaderResponse every memory-map entry has base and
size multiples of 4096, and every module entry has an address that is a
multiple of 4096. -/
theorem valid_entries_page_aligned (r : BootloaderResponse) (h : r.valid) :
    (∀ e ∈ r.memory_map_entries, e.base % 4096 = 0 ∧ e.size % 4096 = 0) ∧
    ∀ m ∈ r.module_entries, m.address % 4096 = 0 :=
  ⟨fun e he => h.1.2 e he, h.2⟩

/-- Witness for C2: the alignment conclusions hold of the concrete valid
response. -/
theorem valid_entries_page_aligned_witness :
    (∀ e ∈ sampleResponse.memory_map_entries, e.base % 4096 = 0 ∧ e.size % 4096 = 0) ∧
    ∀ m ∈ sampleResponse.module_entries, m.address % 4096 = 0 :=
  valid_entries_page_aligned sampleResponse sampleResponse_valid

/-- C6: the firmware table pointers are each either an address or the
null sentinel 0: replacing all four by the null sentinel preserves
validity, so in this protocol revision a response with a null
rsdp_table_ptr is valid. -/
theorem null_firmware_pointers_valid (r : BootloaderResponse) (h : r.valid) :
    r.withNullFirmwareTables.valid ∧
    r.withNullFirmwareTables.rsdp_table_ptr = 0 ∧
    r.withNullFirmwareTables.sm_bios_entry_32 = 0 ∧
    r.withNullFirmwareTables.sm_bios_entry_64 = 0 ∧
    r.withNullFirmwareTables.uefi_system_table_ptr = 0 :=
  ⟨h, rfl, rfl, rfl, rfl⟩

/-- Witness for C6: the concrete valid response, its firmware pointers
nulled, is still valid and its rsdp_table_ptr is the null sentinel. -/
theorem null_firmware_pointers_valid_witness :
    sampleResponse.withNullFirmwareTables.valid ∧
    sampleResponse.withNullFirmwareTables.rsdp_table_ptr = 0 ∧
    sampleResponse.withNullFirmwareTables.sm_bios_entry_32 = 0 ∧
    sampleResponse.withNullFirmwareTables.sm_bios_entry_64 = 0 ∧
    sampleResponse.withNullFirmwareTables.uefi_system_table_ptr = 0 :=
  null_firmware_pointers_valid sampleResponse sampleResponse_valid

end CaporaBootApi
